import Mathlib

/-!
Verification development for the interactive-feedback MCP server
(`server.py`) and its companion GUI script (`feedback_ui.py`).

The development shallowly embeds the inter-process request/response
protocol implemented by `server.py`:

* `launchArgs` / `serverSubprocessCall` — the command line and the
  `subprocess.run` invocation built in `launch_feedback_ui`
  (server.py lines 66-88);
* `launchBody` / `launch_feedback_ui` — the launch / read / validate /
  cleanup pipeline (server.py lines 49-124), with the external effects
  (temp-file creation, child exit status, result-file state, unlink
  success) made explicit as a `LaunchEnv` record;
* `processDict` / `interactive_feedback` — the tool entry point
  (server.py lines 126-181);
* `uiParseArgs` / `uiRunResult` — the argument parser and the result
  object construction of `feedback_ui.py` (lines 1089-1108, 862-894,
  905-912).

Python values appearing in the JSON result file are modelled by `PyVal`
(JSON numbers as integers; floats play no role in any claim), byte
strings by `List Nat`, and raised exceptions by `Except String`.
-/

/-- A Python/JSON value as produced by `json.load`.  Numbers are
modelled as integers; the protocol never exchanges floats. -/
inductive PyVal where
  | null
  | bool (b : Bool)
  | int (n : Int)
  | str (s : String)
  | listv (l : List PyVal)
  | dict (d : List (String × PyVal))

/-- A Python dict, as an association list with unique keys
(`json.load` deduplicates keys, keeping the last occurrence). -/
abbrev PyDict := List (String × PyVal)

/-- First-match key lookup in a dict. -/
def dictGet? : PyDict → String → Option PyVal
  | [], _ => none
  | (k', v) :: rest, k => if k' = k then some v else dictGet? rest k

/-- Model of `d.get(k, default)` — lookup with a default. -/
def pyGetD (d : PyDict) (k : String) (default : PyVal) : PyVal :=
  (dictGet? d k).getD default

/-- Python truthiness (`bool(x)`) for the modelled values. -/
def pyTruthy : PyVal → Bool
  | .null => false
  | .bool b => b
  | .int n => n != 0
  | .str s => s != ""
  | .listv l => !l.isEmpty
  | .dict d => !d.isEmpty

/-- The whitespace `str.strip()` removes: the codepoints whose Python
`str.isspace()` holds — 0x09-0x0d and 0x1c-0x20 in ASCII, 0x85 and
0xa0 in Latin-1, and the Unicode spaces 0x1680 and 0x2000-0x200a, the
line and paragraph separators 0x2028-0x2029, and 0x202f, 0x205f and
0x3000. -/
def isPySpace (c : Char) : Bool :=
  (9 ≤ c.toNat && c.toNat ≤ 13) || (28 ≤ c.toNat && c.toNat ≤ 32) ||
  c.toNat = 0x85 || c.toNat = 0xa0 || c.toNat = 0x1680 ||
  (0x2000 ≤ c.toNat && c.toNat ≤ 0x200a) ||
  c.toNat = 0x2028 || c.toNat = 0x2029 || c.toNat = 0x202f ||
  c.toNat = 0x205f || c.toNat = 0x3000

/-- Model of `s.strip()` — drop leading and trailing whitespace. -/
def pyStrip (s : String) : String :=
  String.mk (((s.data.dropWhile isPySpace).reverse.dropWhile isPySpace).reverse)

/-- Model of `s.strip()` applied to a dynamically typed value: any non-string
raises `AttributeError` (server.py line 148 calls `.strip()` on
`result_dict.get("interactive_feedback", "")`). -/
def pyStripVal : PyVal → Except String String
  | .str s => .ok (pyStrip s)
  | _ => .error "AttributeError: object has no attribute strip"

/-- Python iteration (`enumerate(x)`): lists yield their elements,
strings their characters, dicts their keys; other values raise
`TypeError`. -/
def pyIter : PyVal → Except String (List PyVal)
  | .listv l => .ok l
  | .str s => .ok (s.data.map fun c => .str (String.mk [c]))
  | .dict d => .ok (d.map fun p => .str p.1)
  | _ => .error "TypeError: object is not iterable"

/-- Model of `result_data[k] = v` executed only when `k` is absent —
the defaulting statements of server.py lines 110-115. -/
def setDefault (d : PyDict) (k : String) (v : PyVal) : PyDict :=
  if (dictGet? d k).isSome then d else d ++ [(k, v)]

/-- The three defaulting statements of server.py lines 110-115 in
source order. -/
def validateDict (d : PyDict) : PyDict :=
  setDefault
    (setDefault
      (setDefault d "interactive_feedback" (.str ""))
      "images" (.listv []))
    "end_session" (.bool false)

/-- Lines 107-117 of server.py: reject a non-dict parse result,
otherwise fill in the missing keys. -/
def validateResult : PyVal → Except String PyDict
  | .dict d => .ok (validateDict d)
  | _ => .error "Invalid feedback result: expected dict"

/-! ### Base64 (model of the Python standard library)

`server.py` calls `base64.b64encode` on the UTF-8 bytes of the prompt
(line 66) and `base64.b64decode` on each image entry (line 160).  The
functions below model those library calls: standard-alphabet base64
with `=` padding on encode, and the permissive `validate=False`
decoder on decode — a model of `binascii.a2b_base64` in its non-strict
mode, which skips characters outside the alphabet, emits bytes as
digits arrive, finishes early at padding once the final group holds at
least four digits and pads together, and rejects input ending in a
partially filled group. -/

/-- The value of a standard-alphabet base64 digit. -/
def b64DigitVal (c : Char) : Option Nat :=
  if 'A' ≤ c && c ≤ 'Z' then some (c.toNat - 'A'.toNat)
  else if 'a' ≤ c && c ≤ 'z' then some (c.toNat - 'a'.toNat + 26)
  else if '0' ≤ c && c ≤ '9' then some (c.toNat - '0'.toNat + 52)
  else if c = '+' then some 62
  else if c = '/' then some 63
  else none

/-- The character for a 6-bit value. -/
def b64CharOf (n : Nat) : Char :=
  "ABCDEFGHIJKLMNOPQRSTUVWXYZabcdefghijklmnopqrstuvwxyz0123456789+/".data.getD n 'A'

/-- UTF-8 encoding of one character. -/
def utf8Char (c : Char) : List Nat :=
  let n := c.toNat
  if n < 0x80 then [n]
  else if n < 0x800 then [0xC0 + n / 64, 0x80 + n % 64]
  else if n < 0x10000 then
    [0xE0 + n / 4096, 0x80 + n / 64 % 64, 0x80 + n % 64]
  else
    [0xF0 + n / 262144, 0x80 + n / 4096 % 64, 0x80 + n / 64 % 64, 0x80 + n % 64]

/-- Model of `s.encode("utf-8")` as a byte list. -/
def utf8Bytes (s : String) : List Nat :=
  s.data.foldr (fun c acc => utf8Char c ++ acc) []

/-- Model of `base64.b64encode` on a byte list, producing the padded text. -/
def b64encodeBytes : List Nat → String
  | [] => ""
  | [a] =>
    String.mk [b64CharOf (a / 4), b64CharOf (a % 4 * 16)] ++ "=="
  | [a, b] =>
    String.mk [b64CharOf (a / 4), b64CharOf (a % 4 * 16 + b / 16),
      b64CharOf (b % 16 * 4)] ++ "="
  | a :: b :: c :: rest =>
    String.mk [b64CharOf (a / 4), b64CharOf (a % 4 * 16 + b / 16),
      b64CharOf (b % 16 * 4 + c / 64), b64CharOf (c % 64)] ++ b64encodeBytes rest

/-- Model of `base64.b64encode(s.encode("utf-8")).decode("utf-8")` —
server.py lines 66-70. -/
def b64OfString (s : String) : String :=
  b64encodeBytes (utf8Bytes s)

/-- The scanning loop of CPython's `binascii.a2b_base64` in its
default non-strict mode.  `quadPos` is the position inside the current
four-digit group, `leftchar` the bits carried over from the previous
digit, `pads` the run of padding characters seen in the current final
group; bytes are emitted as soon as a digit completes them.  A `=`
with `quadPos ≥ 2` counts towards `pads` and finishes the decode once
`quadPos + pads ≥ 4` (the rest of the input is ignored); a `=`
elsewhere, like any non-alphabet character, is skipped, and a digit
resets `pads`.  Input ending with a partially filled group is an
error: `Incorrect padding`, or for a single leftover digit the
data-character-count message. -/
def a2bBase64Loop : List Char → Nat → Nat → Nat → List Nat → Except String (List Nat)
  | [], quadPos, _, _, acc =>
    if quadPos = 0 then .ok acc
    else if quadPos = 1 then
      .error ("Invalid base64-encoded string: number of data characters ("
        ++ toString (acc.length / 3 * 4 + 1)
        ++ ") cannot be 1 more than a multiple of 4")
    else .error "Incorrect padding"
  | c :: rest, quadPos, leftchar, pads, acc =>
    if c = '=' then
      if quadPos ≥ 2 then
        if quadPos + (pads + 1) ≥ 4 then .ok acc
        else a2bBase64Loop rest quadPos leftchar (pads + 1) acc
      else a2bBase64Loop rest quadPos leftchar pads acc
    else
      match b64DigitVal c with
      | none => a2bBase64Loop rest quadPos leftchar pads acc
      | some v =>
        if quadPos = 0 then a2bBase64Loop rest 1 v 0 acc
        else if quadPos = 1 then
          a2bBase64Loop rest 2 (v % 16) 0 (acc ++ [leftchar * 4 + v / 16])
        else if quadPos = 2 then
          a2bBase64Loop rest 3 (v % 4) 0 (acc ++ [leftchar * 16 + v / 4])
        else a2bBase64Loop rest 0 0 0 (acc ++ [leftchar * 64 + v])

/-- Model of `base64.b64decode(s)` on a `str` argument with the default
`validate=False`: non-ASCII input is a `ValueError`; otherwise the
bytes are produced by `binascii.a2b_base64` in non-strict mode,
modelled by `a2bBase64Loop`. -/
def pyB64Decode (s : String) : Except String (List Nat) :=
  if s.data.any (fun c => c.toNat ≥ 128) then
    .error "string argument should contain only ASCII characters"
  else a2bBase64Loop s.data 0 0 0 []

/-- Model of `base64.b64decode` applied to a dynamically typed list entry
(server.py line 160): non-string entries raise `TypeError`, which the
surrounding `except` also catches. -/
def pyB64DecodeVal : PyVal → Except String (List Nat)
  | .str s => pyB64Decode s
  | _ => .error "TypeError: argument should be a bytes-like object or ASCII string"

/-! ### JSON string encoding (model of `json.dumps` on a list of strings)

Used by server.py line 78 for the `--predefined-options` argument. -/

/-- Lowercase hex digit. -/
def hexDigit (n : Nat) : Char :=
  "0123456789abcdef".data.getD n '0'

/-- Four-digit lowercase hex. -/
def hex4 (n : Nat) : String :=
  String.mk [hexDigit (n / 4096 % 16), hexDigit (n / 256 % 16),
    hexDigit (n / 16 % 16), hexDigit (n % 16)]

/-- One character of a JSON string under `json.dumps` defaults
(`ensure_ascii=True`): the two-character escapes, `\uXXXX` for other
control and non-ASCII characters (with surrogate pairs beyond the
basic plane), everything else verbatim. -/
def jsonEscapeChar (c : Char) : String :=
  if c = '"' then "\\\""
  else if c = '\\' then "\\\\"
  else if c = '\n' then "\\n"
  else if c = '\r' then "\\r"
  else if c = '\t' then "\\t"
  else if c.toNat = 8 then "\\b"
  else if c.toNat = 12 then "\\f"
  else if c.toNat < 32 then "\\u" ++ hex4 c.toNat
  else if c.toNat < 127 then String.mk [c]
  else if c.toNat < 65536 then "\\u" ++ hex4 c.toNat
  else
    let m := c.toNat - 65536
    "\\u" ++ hex4 (55296 + m / 1024) ++ "\\u" ++ hex4 (56320 + m % 1024)

/-- A JSON string literal. -/
def jsonQuote (s : String) : String :=
  "\"" ++ String.join (s.data.map jsonEscapeChar) ++ "\""

/-- Model of `json.dumps` of a list of strings (default separators). -/
def jsonDumpsStrList (l : List String) : String :=
  "[" ++ String.intercalate ", " (l.map jsonQuote) ++ "]"

/-! ### The command line built by `launch_feedback_ui`
(server.py lines 66-88) -/

/-- Model of `json.dumps(predefinedOptions) if predefinedOptions else ""` —
server.py line 78 (both `None` and the empty list are falsy). -/
def predefinedOptionsArg : Option (List String) → String
  | some l => if l.isEmpty then "" else jsonDumpsStrList l
  | none => ""

/-- The argument vector of server.py lines 72-80.  `default_prompt or
""` (line 67) is the identity on present strings and maps `None` to
the empty string. -/
def launchArgs (executable scriptPath : String) (summary : String)
    (predefinedOptions : Option (List String)) (default_prompt : Option String)
    (outputFile : String) : List String :=
  [executable, "-u", scriptPath,
   "--encoded-prompt", b64OfString summary,
   "--output-file", outputFile,
   "--predefined-options", predefinedOptionsArg predefinedOptions,
   "--default-prompt", b64OfString (default_prompt.getD "")]

/-- What the child script's `argparse` parses: `sys.argv[1:]`, i.e.
the tokens after the interpreter, its `-u` flag and the script path. -/
def uiArgv (args : List String) : List String := args.drop 3

/-- The keyword arguments of the `subprocess.run` call. -/
structure SubprocessCall where
  args : List String
  check : Bool
  shell : Bool
  captureOutput : Bool
  stdinDevnull : Bool
  closeFds : Bool
  timeout : Option Nat

/-- The `subprocess.run` invocation of server.py lines 81-88.  The
`timeout` keyword is not passed, so it keeps its default `None`. -/
def serverSubprocessCall (args : List String) : SubprocessCall :=
  { args := args, check := false, shell := false, captureOutput := true,
    stdinDevnull := true, closeFds := true, timeout := none }

/-- A child process run, seen from outside: how long it takes to exit
and what it reports. -/
structure ChildRun where
  duration : Nat
  returncode : Int
  stderr : String

/-- Outcome of `subprocess.run`: a completed process, or
`TimeoutExpired` raised after the child was killed. -/
inductive RunResult where
  | completed (returncode : Int) (stderr : String)
  | timedOut
deriving DecidableEq

/-- Documented behaviour of `subprocess.run`: with `timeout=None` it
waits for the child indefinitely; with `timeout=t` it kills the child
and raises `TimeoutExpired` once `t` seconds elapse. -/
def subprocessRun (c : SubprocessCall) (child : ChildRun) : RunResult :=
  match c.timeout with
  | none => .completed child.returncode child.stderr
  | some t => if child.duration > t then .timedOut else .completed child.returncode child.stderr

/-! ### Reply assembly (server.py lines 126-181) -/

/-- A content block of the tool reply: a text item, or an image item
carrying binary data and the declared format. -/
inductive ContentBlock where
  | text (s : String)
  | image (data : List Nat) (format : String)
deriving DecidableEq

/-- The fixed stop sentence of server.py line 153. -/
def stop_note : String :=
  "User selected End. Finalize the response now and do not call the interactive_feedback tool again."

/-- The `f"{txt}\n\n{note}" if txt else note` pattern of server.py
lines 154 and 167: append with a blank-line separator when the
existing text is non-empty. -/
def joinBlank (txt note : String) : String :=
  if txt = "" then note else txt ++ "\n\n" ++ note

/-- The warning line of server.py line 166. -/
def warningFor (idx : Nat) (e : String) : String :=
  "[warning] Image " ++ toString idx ++ " failed to decode: " ++ e

/-- The image-decoding loop of server.py lines 156-167: `idx` is the
1-based `enumerate` counter; a failed decode appends a warning to the
running text and is skipped, a successful one contributes its bytes. -/
def decodeImages : String → List PyVal → Nat → String × List (List Nat)
  | txt, [], _ => (txt, [])
  | txt, v :: rest, idx =>
    match pyB64DecodeVal v with
    | .ok bytes =>
      let p := decodeImages txt rest (idx + 1)
      (p.1, bytes :: p.2)
    | .error e => decodeImages (joinBlank txt (warningFor idx e)) rest (idx + 1)

/-- The `if not contents` fallback of server.py lines 178-179. -/
def finalizeContents (contents : List ContentBlock) : List ContentBlock :=
  if contents.isEmpty then [ContentBlock.text ""] else contents

/-- Lines 169-181 of server.py: a text block when the text is
non-empty, then one image block per decoded image (format fixed to
"png", line 163), and a single empty text block if nothing else was
produced. -/
def assembleContents (txt : String) (images : List (List Nat)) : List ContentBlock :=
  finalizeContents
    ((if txt = "" then [] else [ContentBlock.text txt]) ++
      images.map (fun b => ContentBlock.image b "png"))

/-- Model of `bool(result_dict.get("end_session", False))` — server.py line 150. -/
def endSessionFlag (d : PyDict) : Bool :=
  pyTruthy (pyGetD d "end_session" (.bool false))

/-- Lines 152-154 of server.py: append the stop sentence when the end
signal is set. -/
def endSessionText (ends : Bool) (txt : String) : String :=
  if ends then joinBlank txt stop_note else txt

/-- Lines 156-181 of server.py, from a starting text and the entries
of the `images` value: run the decode loop and assemble the blocks. -/
def replyBlocks (txt : String) (entries : List PyVal) : List ContentBlock :=
  assembleContents (decodeImages txt entries 1).1 (decodeImages txt entries 1).2

/-- Lines 148-181 of server.py, processing the dict returned by
`launch_feedback_ui`.  A `.error` result models an uncaught Python
exception (the `.strip()` call on a non-string, or `enumerate` on a
non-iterable); these lines run outside the `try` of lines 136-143. -/
def processDict (d : PyDict) : Except String (List ContentBlock) :=
  match pyStripVal (pyGetD d "interactive_feedback" (.str "")) with
  | .error e => .error e
  | .ok txt0 =>
    match pyIter (pyGetD d "images" (.listv [])) with
    | .error e => .error e
    | .ok entries =>
      .ok (replyBlocks (endSessionText (endSessionFlag d) txt0) entries)

/-! ### The launch pipeline (server.py lines 43-124)

The effects of the outside world on one `launch_feedback_ui` call are
collected in a `LaunchEnv`: whether the temporary file could be
created, whether the UI script is on disk, how the child exited, the
state of the result file when it is read (and when the `finally`
block runs), and whether the `os.unlink` of the cleanup succeeds.
The command line handed to the child is modelled separately by
`launchArgs`; it does not influence the environment outcomes. -/

/-- State of the result file after the child step. -/
inductive FileState where
  | missing
  | unreadable (e : String)
  | malformed (e : String)
  | parsed (v : PyVal)

/-- Model of `os.path.exists(output_file)`. -/
def FileState.onDisk : FileState → Bool
  | .missing => false
  | _ => true

/-- External outcomes of one `launch_feedback_ui` call. -/
structure LaunchEnv where
  tempfileError : Option String
  feedbackUiPath : String
  uiScriptExists : Bool
  childReturncode : Int
  childStderr : String
  fileState : FileState
  unlinkOk : Bool

/-- The body of the `try` block, server.py lines 52-117. -/
def launchBody (env : LaunchEnv) : Except String PyDict :=
  if env.uiScriptExists = false then
    .error ("feedback_ui.py not found at: " ++ env.feedbackUiPath)
  else if env.childReturncode ≠ 0 then
    .error ("Failed to launch feedback UI (code " ++ toString env.childReturncode ++ "): "
      ++ (if env.childStderr = "" then "Unknown error" else env.childStderr))
  else
    match env.fileState with
    | .missing =>
      .ok [("interactive_feedback", .str ""), ("images", .listv []),
        ("end_session", .bool false)]
    | .malformed e => .error ("Failed to parse feedback result JSON: " ++ e)
    | .unreadable e => .error ("Failed to read feedback result file: " ++ e)
    | .parsed v => validateResult v

/-- Result of `launch_feedback_ui` together with whether the
result-channel path still exists afterwards. -/
structure LaunchOutcome where
  result : Except String PyDict
  pathExists : Bool

/-- server.py lines 43-124.  If the temporary file cannot be created
(line 49), the exception propagates before the `try` and no file
exists.  Otherwise the body runs and the `finally` block (lines
118-124) removes the file when it exists, swallowing an `OSError` of
the `os.unlink` — in which case the file remains on disk. -/
def launch_feedback_ui (env : LaunchEnv) : LaunchOutcome :=
  match env.tempfileError with
  | some e => { result := .error e, pathExists := false }
  | none =>
    { result := launchBody env,
      pathExists := env.fileState.onDisk && !env.unlinkOk }

/-- Reply of the tool entry point together with the final state of
the result-channel path. -/
structure InvokeOutcome where
  reply : Except String (List ContentBlock)
  pathExists : Bool

/-- server.py lines 126-181: any exception of `launch_feedback_ui` is
caught (lines 136-143) and turned into the single error text block of
line 146; otherwise the result dict is processed into content
blocks. -/
def interactive_feedback (env : LaunchEnv) : InvokeOutcome :=
  match (launch_feedback_ui env).result with
  | .error e =>
    { reply := .ok [ContentBlock.text ("[error] Feedback UI failed: " ++ e)],
      pathExists := (launch_feedback_ui env).pathExists }
  | .ok d =>
    { reply := processDict d,
      pathExists := (launch_feedback_ui env).pathExists }

/-! ### The UI script's argument parser (feedback_ui.py lines 1089-1094)

`argparse` with three declared options, each taking one value:
`--prompt` (default `"I have completed the modifications according to
your request."`), `--predefined-options` (default `""`) and
`--output-file`, plus the automatic `-h`/`--help`.  Long options may
be abbreviated to an unambiguous prefix; an unrecognized token makes
`parse_args` exit with an error.  No positional arguments are
declared. -/

/-- The parsed argument namespace. -/
structure UIArgs where
  prompt : String
  predefined_options : String
  output_file : Option String
deriving DecidableEq

/-- The declared defaults of feedback_ui.py lines 1091-1093. -/
def uiDefaultArgs : UIArgs :=
  { prompt := "I have completed the modifications according to your request.",
    predefined_options := "", output_file := none }

/-- Outcome of `parser.parse_args`: a namespace, the help exit, or an
error exit (status 2). -/
inductive ParseOutcome where
  | ok (r : UIArgs)
  | help
  | error (msg : String)
deriving DecidableEq

/-- The long option strings the parser knows. -/
def uiOptionNames : List String :=
  ["--help", "--prompt", "--predefined-options", "--output-file"]

/-- String prefix test on the character lists. -/
def strStartsWith (s pfx : String) : Bool := pfx.data.isPrefixOf s.data

/-- Model of `argparse` long-option matching: an exact name, or an unambiguous
prefix of exactly one known name. -/
def matchOption (tok : String) : Option String :=
  if uiOptionNames.contains tok then some tok
  else
    match uiOptionNames.filter (fun o => strStartsWith o tok) with
    | [o] => some o
    | _ => none

/-- Store a value into the namespace. -/
def assignOption (r : UIArgs) (opt v : String) : UIArgs :=
  if opt = "--prompt" then { r with prompt := v }
  else if opt = "--predefined-options" then { r with predefined_options := v }
  else if opt = "--output-file" then { r with output_file := some v }
  else r

/-- Split a `--name=value` token at the first `=`. -/
def splitEq (tok : String) : String × Option String :=
  match tok.data.dropWhile (fun c => c != '=') with
  | [] => (tok, none)
  | _ :: rest =>
    (String.mk (tok.data.takeWhile (fun c => c != '=')), some (String.mk rest))

/-- The parsing loop, one token at a time.  `pending` is a recognized
option still waiting for its value.  Recognized options consume a
value (inline `=` or the next non-option token), unknown optionals and
stray positionals are collected and reported as `unrecognized
arguments` at the end (no positionals are declared); after a bare
`--`, everything remaining is positional. -/
def uiParseArgsGo : List String → UIArgs → List String → Option String → ParseOutcome
  | [], acc, extras, pending =>
    match pending with
    | some opt => .error ("argument " ++ opt ++ ": expected one argument")
    | none =>
      if extras.isEmpty then .ok acc
      else .error ("unrecognized arguments: " ++ String.intercalate " " extras)
  | tok :: rest, acc, extras, pending =>
    match pending with
    | some opt =>
      if strStartsWith tok "-" && tok.length > 1 then
        .error ("argument " ++ opt ++ ": expected one argument")
      else uiParseArgsGo rest (assignOption acc opt tok) extras none
    | none =>
      if tok = "--" then
        if (extras ++ rest).isEmpty then .ok acc
        else .error ("unrecognized arguments: " ++ String.intercalate " " (extras ++ rest))
      else if tok = "-h" then .help
      else if strStartsWith tok "--" then
        match matchOption (splitEq tok).1 with
        | some opt =>
          if opt = "--help" then .help
          else
            match (splitEq tok).2 with
            | some v => uiParseArgsGo rest (assignOption acc opt v) extras none
            | none => uiParseArgsGo rest acc extras (some opt)
        | none => uiParseArgsGo rest acc (extras ++ [tok]) none
      else uiParseArgsGo rest acc (extras ++ [tok]) none

/-- Model of `parser.parse_args()` of feedback_ui.py line 1094. -/
def uiParseArgs (argv : List String) : ParseOutcome :=
  uiParseArgsGo argv uiDefaultArgs [] none

/-- The prompt text the UI process ends up with, when it gets one at
all: `args.prompt` of feedback_ui.py line 1108, used verbatim (no
base64 decoding appears anywhere in the script). -/
def uiObtainedPrompt (argv : List String) : Option String :=
  match uiParseArgs argv with
  | .ok r => some r.prompt
  | _ => none

/-! ### The result object the UI produces
(feedback_ui.py lines 23-25, 862-894, 905-912) -/

/-- Model of `_submit_feedback` (feedback_ui.py lines 862-894): the stripped
free text, prefixed by the semicolon-joined selected options, joined
by a blank line when both parts exist; the images as base64 strings.
The constructed `FeedbackResult` has exactly the keys
`interactive_feedback` and `images` (lines 23-25, 890-893). -/
def submitFeedbackResult (selectedOptions : List String) (feedbackText : String)
    (imagesB64 : List String) : PyDict :=
  let ft := pyStrip feedbackText
  let parts :=
    (if selectedOptions.isEmpty then [] else [String.intercalate "; " selectedOptions]) ++
      (if ft = "" then [] else [ft])
  [("interactive_feedback", PyVal.str (String.intercalate "\n\n" parts)),
   ("images", PyVal.listv (imagesB64.map PyVal.str))]

/-- Model of `run` when the dialog closes without a submission (feedback_ui.py
line 910): `FeedbackResult(interactive_feedback="")`, a dict with the
single key `interactive_feedback`. -/
def uiCancelResult : PyDict := [("interactive_feedback", PyVal.str "")]

/-- Model of `run` (feedback_ui.py lines 905-912): the submitted result when
there is one — described by the selected options, the free text and
the image list — and the cancel result otherwise. -/
def uiRunResult : Option (List String × String × List String) → PyDict
  | some s => submitFeedbackResult s.1 s.2.1 s.2.2
  | none => uiCancelResult

/-! ### Helper lemmas and shared concrete environments -/

/-- Lookup skips an entry with a different key. -/
lemma dictGet?_cons_ne (k k' : String) (v : PyVal) (rest : PyDict) (h : k ≠ k') :
    dictGet? ((k, v) :: rest) k' = dictGet? rest k' := by
  simp [dictGet?, h]

/-- Lookup hits an entry with the same key. -/
lemma dictGet?_cons_eq (k : String) (v : PyVal) (rest : PyDict) :
    dictGet? ((k, v) :: rest) k = some v := by
  simp [dictGet?]

/-- A key absent from the prefix is looked up in the suffix. -/
lemma dictGet?_append_of_none (d l : PyDict) (k : String) (h : dictGet? d k = none) :
    dictGet? (d ++ l) k = dictGet? l k := by
  induction d with
  | nil => rfl
  | cons p rest ih =>
    cases p with
    | mk k' v =>
      by_cases hk : k' = k
      · simp [dictGet?, hk] at h
      · simp only [List.cons_append, dictGet?, if_neg hk] at h ⊢
        exact ih h

/-- A key found in the prefix is unaffected by the suffix. -/
lemma dictGet?_append_of_some (d l : PyDict) (k : String) (w : PyVal)
    (h : dictGet? d k = some w) :
    dictGet? (d ++ l) k = some w := by
  induction d with
  | nil => simp [dictGet?] at h
  | cons p rest ih =>
    cases p with
    | mk k' v =>
      by_cases hk : k' = k
      · simp only [dictGet?, if_pos hk] at h
        simp only [List.cons_append, dictGet?, if_pos hk]
        exact h
      · simp only [dictGet?, if_neg hk] at h
        simp only [List.cons_append, dictGet?, if_neg hk]
        exact ih h

/-- The function `setDefault` makes the key present, keeping an existing value. -/
lemma dictGet?_setDefault_self (d : PyDict) (k : String) (v : PyVal) :
    dictGet? (setDefault d k v) k = some ((dictGet? d k).getD v) := by
  unfold setDefault
  cases h : dictGet? d k with
  | some w => simp [h]
  | none =>
    simp only [h, Option.isSome_none, Bool.false_eq_true, if_false, Option.getD_none]
    rw [dictGet?_append_of_none _ _ _ h]
    exact dictGet?_cons_eq k v []

/-- The function `setDefault` leaves other keys alone. -/
lemma dictGet?_setDefault_ne (d : PyDict) (k k' : String) (v : PyVal) (h : k ≠ k') :
    dictGet? (setDefault d k v) k' = dictGet? d k' := by
  unfold setDefault
  split
  · rfl
  · cases h' : dictGet? d k' with
    | some w => exact dictGet?_append_of_some _ _ _ _ h'
    | none =>
      rw [dictGet?_append_of_none _ _ _ h']
      simp [dictGet?, h]

/-- The reply data never depends on whether the cleanup managed to
delete the file. -/
lemma interactive_feedback_pathExists (env : LaunchEnv) :
    (interactive_feedback env).pathExists = (launch_feedback_ui env).pathExists := by
  unfold interactive_feedback
  split <;> rfl

/-- The fallback of lines 178-179 never leaves the empty sequence. -/
lemma finalizeContents_ne_nil (contents : List ContentBlock) :
    finalizeContents contents ≠ [] := by
  unfold finalizeContents
  split
  · exact List.cons_ne_nil _ _
  · rename_i h
    intro hc
    rw [hc] at h
    exact h rfl

/-- The function `assembleContents` never produces the empty sequence. -/
lemma assembleContents_ne_nil (txt : String) (images : List (List Nat)) :
    assembleContents txt images ≠ [] :=
  finalizeContents_ne_nil _

/-- A successful `processDict` reply is non-empty. -/
lemma processDict_ok_ne_nil (d : PyDict) (l : List ContentBlock)
    (h : processDict d = .ok l) : l ≠ [] := by
  unfold processDict at h
  split at h
  · exact absurd h (by simp)
  · split at h
    · exact absurd h (by simp)
    · rw [Except.ok.injEq] at h
      rw [← h]
      exact assembleContents_ne_nil _ _

/-- Appending with a blank-line separator keeps a non-empty note
non-empty. -/
lemma joinBlank_ne_empty (t note : String) (h : note ≠ "") : joinBlank t note ≠ "" := by
  unfold joinBlank
  split
  · exact h
  · intro hc
    apply h
    have hl := congrArg String.length hc
    rw [String.length_append, String.length_append] at hl
    have h2 : ("\n\n" : String).length = 2 := rfl
    have h0 : ("" : String).length = 0 := rfl
    rw [h2, h0] at hl
    have hn : note.length = 0 := by omega
    exact String.ext (List.length_eq_zero.mp hn)

/-- An environment in which the UI script is missing. -/
def envScriptMissing : LaunchEnv :=
  { tempfileError := none, feedbackUiPath := "/srv/feedback_ui.py",
    uiScriptExists := false, childReturncode := 0, childStderr := "",
    fileState := .missing, unlinkOk := true }

/-- An environment in which the child exits 0 without leaving a
result file. -/
def envCancel : LaunchEnv :=
  { tempfileError := none, feedbackUiPath := "/srv/feedback_ui.py",
    uiScriptExists := true, childReturncode := 0, childStderr := "",
    fileState := .missing, unlinkOk := true }

/-- An environment in which the child writes
`{"interactive_feedback": "done", "images": [], "end_session": true}`. -/
def envDone : LaunchEnv :=
  { tempfileError := none, feedbackUiPath := "/srv/feedback_ui.py",
    uiScriptExists := true, childReturncode := 0, childStderr := "",
    fileState := .parsed (.dict [("interactive_feedback", .str "done"),
      ("images", .listv []), ("end_session", .bool true)]),
    unlinkOk := true }

/-- An environment in which the result file is written normally but
the cleanup `os.unlink` fails with an `OSError`. -/
def envUnlinkFail : LaunchEnv :=
  { tempfileError := none, feedbackUiPath := "/srv/feedback_ui.py",
    uiScriptExists := true, childReturncode := 0, childStderr := "",
    fileState := .parsed (.dict [("interactive_feedback", .str "hello"),
      ("images", .listv []), ("end_session", .bool false)]),
    unlinkOk := false }

/-- The warning lines the decode loop should generate: one per failing
entry, numbered by the entry's position in `List.enumFrom start`. -/
def failureWarnings (start : Nat) (entries : List PyVal) : List String :=
  (List.enumFrom start entries).filterMap fun p =>
    match pyB64DecodeVal p.2 with
    | .error e => some (warningFor p.1 e)
    | .ok _ => none

/-- The images collected by the decode loop are exactly the
successfully decoded entries, in their original order. -/
lemma decodeImages_snd (entries : List PyVal) (txt : String) (idx : Nat) :
    (decodeImages txt entries idx).2
      = entries.filterMap (fun v => (pyB64DecodeVal v).toOption) := by
  induction entries generalizing txt idx with
  | nil => rfl
  | cons v rest ih =>
    unfold decodeImages
    cases h : pyB64DecodeVal v with
    | ok bytes => simp [h, List.filterMap_cons, Except.toOption, ih]
    | error e => simp [h, List.filterMap_cons, Except.toOption, ih]

/-- The text produced by the decode loop is the starting text with the
warning for each failing entry appended in order, each numbered by the
entry's `enumFrom` position. -/
lemma decodeImages_fst (entries : List PyVal) (txt : String) (idx : Nat) :
    (decodeImages txt entries idx).1
      = (failureWarnings idx entries).foldl joinBlank txt := by
  induction entries generalizing txt idx with
  | nil => rfl
  | cons v rest ih =>
    unfold decodeImages failureWarnings
    cases h : pyB64DecodeVal v with
    | ok bytes =>
      simp only [h, List.enumFrom_cons, List.filterMap_cons]
      rw [ih]
      rfl
    | error e =>
      simp only [h, List.enumFrom_cons, List.filterMap_cons]
      rw [ih]
      rfl

/-! ### Claim theorems -/

/-- A call whose argument vector is built as in `launch_feedback_ui`,
for a sample request. -/
def demoCall : SubprocessCall :=
  serverSubprocessCall
    (launchArgs "/usr/bin/python3" "/srv/feedback_ui.py" "hello" none (some "") "/tmp/out.json")

/-- A child process that stays alive for 301 seconds — past the
claimed 300-second ceiling — then exits 0. -/
def overBudgetChild : ChildRun := { duration := 301, returncode := 0, stderr := "" }

/-- C1 counterexample: the `subprocess.run` call of server.py lines
81-88 passes no `timeout`, so a child running 301 seconds — past the
claimed 300-second ceiling — is simply waited for and completes; it is
not killed and no `TimeoutError` arises. -/
theorem C1_counterexample :
    subprocessRun demoCall overBudgetChild = RunResult.completed 0 "" ∧
    subprocessRun demoCall overBudgetChild ≠ RunResult.timedOut ∧
    demoCall.timeout = none := by
  refine ⟨rfl, ?_, rfl⟩
  intro h
  exact RunResult.noConfusion h

/-- C1 amended: the invoker waits for the spawned UI process with no
wall-clock ceiling — `subprocess.run` is invoked without a timeout, so
for every child, however long it runs, the call completes normally and
no timeout is ever raised. -/
theorem C1_no_timeout (args : List String) (child : ChildRun) :
    subprocessRun (serverSubprocessCall args) child
      = RunResult.completed child.returncode child.stderr ∧
    (serverSubprocessCall args).timeout = none :=
  ⟨rfl, rfl⟩

/-- The sample prompt of claim C2: leading-hyphen text with an
embedded newline. -/
def c2Message : String := "--flag\nline two"

/-- The argument vector the UI script's parser sees for `c2Message`
(no predefined options, empty default prompt). -/
def c2ChildArgv : List String :=
  uiArgv (launchArgs "/usr/bin/python3" "/srv/feedback_ui.py" c2Message none (some "") "/tmp/out.json")

/-- C2 (code bug): server.py base64-encodes the prompt and passes it
as `--encoded-prompt`, but feedback_ui.py's parser knows only
`--prompt`, `--predefined-options` and `--output-file` and performs no
base64 decoding anywhere; on the server-built argument vector the
parse exits with `unrecognized arguments`, so the UI never obtains the
original message. -/
theorem C2_prompt_never_received :
    uiParseArgs c2ChildArgv
      = ParseOutcome.error
          "unrecognized arguments: --encoded-prompt LS1mbGFnCmxpbmUgdHdv --default-prompt " ∧
    uiObtainedPrompt c2ChildArgv = none ∧
    uiObtainedPrompt c2ChildArgv ≠ some c2Message := by
  refine ⟨rfl, rfl, ?_⟩
  intro h
  rw [show uiObtainedPrompt c2ChildArgv = none from rfl] at h
  exact Option.noConfusion h

/-- C3: every error result of `launch_feedback_ui` — resource,
process-failure, read, parse or shape error — is caught at the invoke
boundary and becomes exactly one text block
`"[error] Feedback UI failed: <detail>"`; the reply is an ordinary
return value, never a propagated exception. -/
theorem C3_error_boundary (env : LaunchEnv) (e : String)
    (h : (launch_feedback_ui env).result = .error e) :
    (interactive_feedback env).reply
      = .ok [ContentBlock.text ("[error] Feedback UI failed: " ++ e)] := by
  unfold interactive_feedback
  rw [h]

/-- Witness for C3 at a concrete environment: the UI script is
missing, and the reply is the single error text block. -/
theorem C3_error_boundary_witness :
    (interactive_feedback envScriptMissing).reply
      = .ok [ContentBlock.text
          ("[error] Feedback UI failed: " ++ "feedback_ui.py not found at: /srv/feedback_ui.py")] :=
  C3_error_boundary envScriptMissing "feedback_ui.py not found at: /srv/feedback_ui.py" rfl

/-- C4: normalization of a parsed JSON object always yields all three
fields — a present key keeps its value, a missing
`interactive_feedback` defaults to `""`, a missing `images` to the
empty list, a missing `end_session` to `false` — and a parse result
that is not an object fails with the invalid-shape error. -/
theorem C4_normalize_defaults (v : PyVal) :
    (∀ d : PyDict, v = PyVal.dict d →
      validateResult v = .ok (validateDict d) ∧
      dictGet? (validateDict d) "interactive_feedback"
        = some ((dictGet? d "interactive_feedback").getD (PyVal.str "")) ∧
      dictGet? (validateDict d) "images"
        = some ((dictGet? d "images").getD (PyVal.listv [])) ∧
      dictGet? (validateDict d) "end_session"
        = some ((dictGet? d "end_session").getD (PyVal.bool false))) ∧
    ((∀ d : PyDict, v ≠ PyVal.dict d) →
      validateResult v = .error "Invalid feedback result: expected dict") := by
  constructor
  · rintro d rfl
    refine ⟨rfl, ?_, ?_, ?_⟩
    · unfold validateDict
      rw [dictGet?_setDefault_ne _ _ _ _ (by decide),
        dictGet?_setDefault_ne _ _ _ _ (by decide),
        dictGet?_setDefault_self]
    · unfold validateDict
      rw [dictGet?_setDefault_ne _ _ _ _ (by decide),
        dictGet?_setDefault_self,
        dictGet?_setDefault_ne _ _ _ _ (by decide)]
    · unfold validateDict
      rw [dictGet?_setDefault_self,
        dictGet?_setDefault_ne _ _ _ _ (by decide),
        dictGet?_setDefault_ne _ _ _ _ (by decide)]
  · intro h
    cases v with
    | dict d => exact absurd rfl (h d)
    | null => rfl
    | bool b => rfl
    | int n => rfl
    | str s => rfl
    | listv l => rfl

/-- Witness for C4 at concrete inputs: the empty object gains all
defaults, and a string result is rejected. -/
theorem C4_normalize_defaults_witness :
    validateResult (PyVal.dict []) = .ok (validateDict []) ∧
    dictGet? (validateDict []) "end_session" = some (PyVal.bool false) ∧
    validateResult (PyVal.str "oops") = .error "Invalid feedback result: expected dict" := by
  refine ⟨((C4_normalize_defaults (PyVal.dict [])).1 [] rfl).1, ?_, ?_⟩
  · exact ((C4_normalize_defaults (PyVal.dict [])).1 [] rfl).2.2.2
  · exact (C4_normalize_defaults (PyVal.str "oops")).2 (fun d h => PyVal.noConfusion h)

/-- C5: when the child exits 0 and no result file exists, the launch
step synthesizes the empty response (feedback `""`, no images, end
signal off) instead of failing, and the final reply is exactly one
empty text block. -/
theorem C5_cancel_path (env : LaunchEnv)
    (h1 : env.tempfileError = none) (h2 : env.uiScriptExists = true)
    (h3 : env.childReturncode = 0) (h4 : env.fileState = FileState.missing) :
    (launch_feedback_ui env).result
      = .ok [("interactive_feedback", PyVal.str ""), ("images", PyVal.listv []),
          ("end_session", PyVal.bool false)] ∧
    (interactive_feedback env).reply = .ok [ContentBlock.text ""] := by
  have hres : (launch_feedback_ui env).result
      = .ok [("interactive_feedback", PyVal.str ""), ("images", PyVal.listv []),
          ("end_session", PyVal.bool false)] := by
    simp [launch_feedback_ui, h1, launchBody, h2, h3, h4]
  refine ⟨hres, ?_⟩
  unfold interactive_feedback
  rw [hres]
  rfl

/-- Witness for C5 at a concrete environment. -/
theorem C5_cancel_path_witness :
    (interactive_feedback envCancel).reply = .ok [ContentBlock.text ""] :=
  (C5_cancel_path envCancel rfl rfl rfl rfl).2

/-- C6: every reply the tool returns is a non-empty sequence, and in
particular an empty text and no images are replaced by the single
empty text block. -/
theorem C6_reply_nonempty :
    (∀ (env : LaunchEnv) (l : List ContentBlock),
      (interactive_feedback env).reply = .ok l → l ≠ []) ∧
    assembleContents "" [] = [ContentBlock.text ""] := by
  constructor
  · intro env l h
    unfold interactive_feedback at h
    cases hres : (launch_feedback_ui env).result with
    | error e =>
      rw [hres] at h
      simp only [Except.ok.injEq] at h
      rw [← h]
      simp
    | ok d =>
      rw [hres] at h
      exact processDict_ok_ne_nil d l h
  · rfl

/-- Witness for C6 at a concrete environment. -/
theorem C6_reply_nonempty_witness : ([ContentBlock.text ""] : List ContentBlock) ≠ [] :=
  C6_reply_nonempty.1 envCancel [ContentBlock.text ""] rfl

/-- With a non-empty text, the reply is the text block followed by
the image blocks in order. -/
lemma assembleContents_of_ne_empty (txt : String) (imgs : List (List Nat)) (h : txt ≠ "") :
    assembleContents txt imgs
      = ContentBlock.text txt :: imgs.map (fun b => ContentBlock.image b "png") := by
  unfold assembleContents finalizeContents
  rw [if_neg h]
  simp

/-- C7: a failing image entry is skipped — the collected images are
exactly the successfully decoded entries in original order — and each
failure appends the warning line numbered by the entry's 1-based
position; with non-empty text the blocks are the text followed by the
images; the decoder agrees with `base64.b64decode` on the incomplete
padded groups `"ab="` and `"ab=c"` (errors), on `"ab=cd="` (three
bytes) and `"ab=="` (one byte); and for one invalid entry with empty
feedback the reply is the single warning text block with the required
prefix and no image items. -/
theorem C7_image_decode_failures :
    (∀ (txt : String) (entries : List PyVal),
      (decodeImages txt entries 1).2
        = entries.filterMap (fun v => (pyB64DecodeVal v).toOption)) ∧
    (∀ (txt : String) (entries : List PyVal),
      (decodeImages txt entries 1).1
        = (failureWarnings 1 entries).foldl joinBlank txt) ∧
    (∀ (txt : String) (imgs : List (List Nat)), txt ≠ "" →
      assembleContents txt imgs
        = ContentBlock.text txt :: imgs.map (fun b => ContentBlock.image b "png")) ∧
    pyB64Decode "ab=" = .error "Incorrect padding" ∧
    pyB64Decode "ab=c" = .error "Incorrect padding" ∧
    pyB64Decode "ab=cd=" = .ok [105, 183, 29] ∧
    pyB64Decode "ab==" = .ok [105] ∧
    pyB64Decode "a"
      = .error "Invalid base64-encoded string: number of data characters (1) cannot be 1 more than a multiple of 4" ∧
    processDict [("interactive_feedback", PyVal.str ""),
        ("images", PyVal.listv [PyVal.str "abc"])]
      = .ok [ContentBlock.text "[warning] Image 1 failed to decode: Incorrect padding"] ∧
    strStartsWith "[warning] Image 1 failed to decode: Incorrect padding"
      "[warning] Image 1 failed to decode:" = true :=
  ⟨fun txt entries => decodeImages_snd entries txt 1,
   fun txt entries => decodeImages_fst entries txt 1,
   fun txt imgs h => assembleContents_of_ne_empty txt imgs h,
   rfl, rfl, rfl, rfl, rfl, rfl, rfl⟩

/-- Witness for C7 at concrete inputs. -/
theorem C7_image_decode_failures_witness :
    assembleContents "x" [[0]] = [ContentBlock.text "x", ContentBlock.image [0] "png"] :=
  C7_image_decode_failures.2.2.1 "x" [[0]] (by decide)

/-- C8: with the end signal set, the stop sentence is appended to the
stripped feedback text, preceded by a blank-line separator exactly
when that text is non-empty; feedback that is whitespace in Python's
sense — such as a lone no-break space — strips to empty and gets no
separator; and for feedback `"done"` the whole pipeline replies with
the single text block `"done\n\n" ++ stop_note`. -/
theorem C8_end_session_note :
    (∀ fb : String,
      processDict [("interactive_feedback", PyVal.str fb), ("images", PyVal.listv []),
          ("end_session", PyVal.bool true)]
        = .ok [ContentBlock.text
            (if pyStrip fb = "" then stop_note else pyStrip fb ++ "\n\n" ++ stop_note)]) ∧
    processDict [("interactive_feedback", PyVal.str "\u00A0"), ("images", PyVal.listv []),
        ("end_session", PyVal.bool true)]
      = .ok [ContentBlock.text stop_note] ∧
    (interactive_feedback envDone).reply
      = .ok [ContentBlock.text ("done\n\n" ++ stop_note)] := by
  refine ⟨?_, rfl, rfl⟩
  intro fb
  have hd : processDict [("interactive_feedback", PyVal.str fb), ("images", PyVal.listv []),
        ("end_session", PyVal.bool true)]
      = .ok (assembleContents (joinBlank (pyStrip fb) stop_note) []) := rfl
  rw [hd, assembleContents_of_ne_empty _ _ (joinBlank_ne_empty _ _ (by decide))]
  rfl

/-- C9 counterexample: in an environment where the call succeeds but
the cleanup `os.unlink` fails with an `OSError`, the failure is
swallowed and the invocation returns normally — yet the result-channel
path still exists afterwards, contradicting the claim that it never
does. -/
theorem C9_counterexample :
    (interactive_feedback envUnlinkFail).pathExists = true ∧
    (interactive_feedback envUnlinkFail).reply = .ok [ContentBlock.text "hello"] :=
  ⟨rfl, rfl⟩

/-- C9 amended: on every exit path the cleanup removes the file when
it exists, a deletion failure is swallowed rather than escalated (the
reply is unchanged by it) — and the path is gone afterwards provided
the deletion itself, when needed, succeeds. -/
theorem C9_cleanup (env : LaunchEnv) :
    (env.unlinkOk = true → (interactive_feedback env).pathExists = false) ∧
    (interactive_feedback { env with unlinkOk := false }).reply
      = (interactive_feedback { env with unlinkOk := true }).reply := by
  constructor
  · intro h
    rw [interactive_feedback_pathExists]
    unfold launch_feedback_ui
    cases ht : env.tempfileError with
    | some e => rfl
    | none => simp [h]
  · have hl : (launch_feedback_ui { env with unlinkOk := false }).result
        = (launch_feedback_ui { env with unlinkOk := true }).result := by
      unfold launch_feedback_ui
      cases env.tempfileError <;> rfl
    unfold interactive_feedback
    rw [hl]
    cases (launch_feedback_ui { env with unlinkOk := true }).result <;> rfl

/-- Witness for C9 at a concrete environment. -/
theorem C9_cleanup_witness : (interactive_feedback envCancel).pathExists = false :=
  (C9_cleanup envCancel).1 rfl

/-- C10: whatever the human does — submit with any options, text and
images, or cancel — the result object the UI constructs has no
`end_session` key, so after the server's normalization the key is
present with value `false` and the end-session flag reads false. -/
theorem C10_ui_never_ends_session (s : Option (List String × String × List String)) :
    dictGet? (uiRunResult s) "end_session" = none ∧
    validateResult (PyVal.dict (uiRunResult s)) = .ok (validateDict (uiRunResult s)) ∧
    dictGet? (validateDict (uiRunResult s)) "end_session" = some (PyVal.bool false) ∧
    endSessionFlag (uiRunResult s) = false ∧
    endSessionFlag (validateDict (uiRunResult s)) = false := by
  cases s with
  | none => exact ⟨rfl, rfl, rfl, rfl, rfl⟩
  | some t => exact ⟨rfl, rfl, rfl, rfl, rfl⟩
